import Mathlib

/-!
Shallow embedding of the npm-template HTTP request executor
(src/src/index.js and src/src/client/index.js).

Two layers are modelled:

* a validation layer over JavaScript-typed configuration values
  (validConfiguration, the HttpBuilder defaults and setters, send);
* an execution layer for the engine (the recursive call function,
  the response classifiers, and the shared mutable headers object).

JavaScript conventions that matter here and are modelled explicitly:
typeof null is the string object; regex test coerces its argument with
String(x) and searches for a substring match; obj.a || b yields b when
obj.a is falsy; the HttpRequest constructor stores the very headers
object of the configuration (this.Headers = headers || calls on the
same reference), so addHeader mutates the configuration headers too.
-/

namespace NpmTemplate

/-- Universe of JavaScript values, as far as the validation layer can
distinguish them.  Numbers are restricted to integers, which covers
every value the claims quantify over. -/
inductive JSVal where
  | undef
  | null
  | bool (b : Bool)
  | num (n : Int)
  | str (s : String)
  | obj
  | func
deriving DecidableEq, Repr

/-- JavaScript typeof operator on the modelled values. -/
def typeofJS : JSVal → String
  | .undef => "undefined"
  | .null => "object"
  | .bool _ => "boolean"
  | .num _ => "number"
  | .str _ => "string"
  | .obj => "object"
  | .func => "function"

/-- lodash isFunction, as used by the validator. -/
def isFunctionJS : JSVal → Bool
  | .func => true
  | _ => false

/-- JavaScript truthiness of the modelled values. -/
def jsTruthy : JSVal → Bool
  | .undef => false
  | .null => false
  | .bool b => b
  | .num n => n != 0
  | .str s => s != ""
  | .obj => true
  | .func => true

/-- Object.values(HttpMethods) from src/src/client/index.js. -/
def httpMethodsValues : List JSVal :=
  [.str "Get", .str "Post", .str "Put", .str "Delete"]

/-- methodInvalid from src/src/index.js line 11:
method === null || !Object.values(HttpMethods).includes(method). -/
def methodInvalid (method : JSVal) : Bool :=
  method == JSVal.null || !(httpMethodsValues.contains method)

/-- strategiesInvalid from src/src/index.js line 13:
!strategies.every(isFunction). -/
def strategiesInvalid (strategies : List JSVal) : Bool :=
  !(strategies.all isFunctionJS)

/-- The configuration record assembled by send (src/src/index.js
lines 238 to 257), with every field still a raw JavaScript value. -/
structure RawConfig where
  method : JSVal
  url : JSVal
  headers : JSVal
  bearer : JSVal
  queryParams : JSVal
  responseType : JSVal
  body : JSVal
  maxRetry : JSVal
  retryFallbackStrategy : JSVal
  unauthorizedStrategy : JSVal
  failedStrategy : JSVal
  noContentStrategy : JSVal
  successStrategy : JSVal
  refreshTokenStrategy : JSVal
  failedSideEffects : List JSVal
  successSideEffects : List JSVal
  unauthorizedSideEffects : List JSVal
  retryFallbackSideEffects : List JSVal
deriving DecidableEq, Repr

/-- The strategy array built on src/src/index.js line 61.  Note that it
spreads failedSideEffects and successSideEffects but neither
unauthorizedSideEffects nor retryFallbackSideEffects. -/
def strategiesOf (c : RawConfig) : List JSVal :=
  [c.retryFallbackStrategy, c.unauthorizedStrategy, c.failedStrategy,
    c.noContentStrategy, c.successStrategy]
  ++ c.failedSideEffects ++ c.successSideEffects
  ++ [c.refreshTokenStrategy]

/-- validConfiguration from src/src/index.js lines 28 to 67.  The
console.warn side of warnAndInvalidate is dropped; only the Boolean
verdict is modelled. -/
def validConfiguration (c : RawConfig) : Bool :=
  if methodInvalid c.method then false
  else if !(jsTruthy c.url) then false
  else if typeofJS c.headers != "object" then false
  else if typeofJS c.queryParams != "object" then false
  else if typeofJS c.maxRetry != "number" then false
  else if strategiesInvalid (strategiesOf c) then false
  else true

/-- Builder state: the fields set in the HttpBuilder constructor
(src/src/index.js lines 108 to 130).  Strategy slots hold raw
JavaScript values so that validation can be stated about them. -/
structure HttpBuilder where
  method : JSVal
  url : JSVal
  bearer : JSVal
  headers : JSVal
  queryParams : JSVal
  responseType : JSVal
  body : JSVal
  maxRetry : JSVal
  retryFallbackStrategy : JSVal
  unauthorizedStrategy : JSVal
  failedStrategy : JSVal
  noContentStrategy : JSVal
  successStrategy : JSVal
  refreshTokenStrategy : JSVal
  retryFallbackSideEffects : List JSVal
  unauthorizedSideEffects : List JSVal
  failedSideEffects : List JSVal
  successSideEffects : List JSVal
deriving DecidableEq, Repr

/-- The HttpBuilder constructor defaults.  The default strategies
(noop, the constant false and true functions, res maps to res.data,
refresh returns false) are all function values. -/
def HttpBuilder.new : HttpBuilder where
  method := .null
  url := .null
  bearer := .null
  headers := .obj
  queryParams := .null
  responseType := .null
  body := .null
  maxRetry := .num 2
  retryFallbackStrategy := .func
  unauthorizedStrategy := .func
  failedStrategy := .func
  noContentStrategy := .func
  successStrategy := .func
  refreshTokenStrategy := .func
  retryFallbackSideEffects := []
  unauthorizedSideEffects := []
  failedSideEffects := []
  successSideEffects := []

def HttpBuilder.asGet (b : HttpBuilder) : HttpBuilder :=
  { b with method := .str "Get" }

def HttpBuilder.asPost (b : HttpBuilder) : HttpBuilder :=
  { b with method := .str "Post" }

def HttpBuilder.asPut (b : HttpBuilder) : HttpBuilder :=
  { b with method := .str "Put" }

def HttpBuilder.asDelete (b : HttpBuilder) : HttpBuilder :=
  { b with method := .str "Delete" }

def HttpBuilder.withUrl (b : HttpBuilder) (u : String) : HttpBuilder :=
  { b with url := .str u }

/-- The configuration object literal assembled inside send
(src/src/index.js lines 238 to 257). -/
def HttpBuilder.sendConfig (b : HttpBuilder) : RawConfig where
  method := b.method
  url := b.url
  headers := b.headers
  bearer := b.bearer
  queryParams := b.queryParams
  responseType := b.responseType
  body := b.body
  maxRetry := b.maxRetry
  retryFallbackStrategy := b.retryFallbackStrategy
  unauthorizedStrategy := b.unauthorizedStrategy
  failedStrategy := b.failedStrategy
  noContentStrategy := b.noContentStrategy
  successStrategy := b.successStrategy
  refreshTokenStrategy := b.refreshTokenStrategy
  failedSideEffects := b.failedSideEffects
  successSideEffects := b.successSideEffects
  unauthorizedSideEffects := b.unauthorizedSideEffects
  retryFallbackSideEffects := b.retryFallbackSideEffects

/-- send (src/src/index.js line 258) invokes call exactly when
validConfiguration holds of the assembled configuration. -/
def HttpBuilder.sendDispatches (b : HttpBuilder) : Bool :=
  validConfiguration b.sendConfig

/-- Selects one of the four method setters asGet, asPost, asPut,
asDelete. -/
def setMethodByIndex : Fin 4 → HttpBuilder → HttpBuilder
  | ⟨0, _⟩ => HttpBuilder.asGet
  | ⟨1, _⟩ => HttpBuilder.asPost
  | ⟨2, _⟩ => HttpBuilder.asPut
  | ⟨3, _⟩ => HttpBuilder.asDelete

/-! ## Execution layer

The engine (call, src/src/index.js lines 69 to 105) together with the
response classifiers (lines 5 to 21) and the HttpRequest value object
(src/src/client/index.js lines 12 to 24).

The only mutable state during a run is the headers object of the
configuration: the HttpRequest constructor aliases it, so it is
threaded through call explicitly as an association list.  The model
covers the case in which the configured headers value is an actual
object (the builder default and the withHeaders setter both supply
one); a null headers value would make the constructor substitute a
fresh empty object instead of aliasing.

Caller-supplied strategies and side effects are observers whose own
return values the claims never inspect, so a run is recorded as a
trace of events (dispatches, refresh calls, side-effect runs) plus
the terminal strategy invocation.  Side effects are identified by
name; registration order is list order. -/

/-- Nested response object, as produced by a transport error
(res.response.status). -/
structure NestedResponse where
  status : Option Int
deriving DecidableEq, Repr

/-- A transport response: status code, payload, optional nested
error response.  An absent (undefined) response is modelled as
Option.none at the use sites. -/
structure Response where
  status : Option Int
  data : JSVal
  response : Option NestedResponse
deriving DecidableEq, Repr

/-- String(x) for a possibly undefined status field. -/
def jsStringOfStatus : Option Int → String
  | some n => toString n
  | none => "undefined"

/-- The value of res.response && res.response.status, coerced to a
string: an undefined res.response short-circuits to undefined. -/
def nestedStatusStr (r : Response) : String :=
  match r.response with
  | none => "undefined"
  | some nr => jsStringOfStatus nr.status

/-- The status expression the classifiers share,
res.status || (res.response && res.response.status), coerced to a
string: a truthy direct status wins, otherwise the nested read. -/
def statusReadStr (r : Response) : String :=
  match r.status with
  | some n => if n != 0 then toString n else nestedStatusStr r
  | none => nestedStatusStr r

/-- True when pat occurs as a contiguous run inside the list. -/
def containsSub (pat : List Char) : List Char → Bool
  | [] => pat.isEmpty
  | c :: rest => pat.isPrefixOf (c :: rest) || containsSub pat rest

/-- Substring search of the regex literal 401 over a coerced status. -/
def test401 (s : String) : Bool :=
  containsSub "401".toList s.toList

/-- Substring search of the regex literal 204 over a coerced status. -/
def test204 (s : String) : Bool :=
  containsSub "204".toList s.toList

/-- Scanner for the regex 2 digit digit: true when some position
starts the character 2 followed by two decimal digits. -/
def hasTwoXX : List Char → Bool
  | c :: a :: b :: rest =>
      (c == '2' && a.isDigit && b.isDigit) || hasTwoXX (a :: b :: rest)
  | _ => false

/-- Regex test for 2 digit digit over a coerced status string. -/
def test2xx (s : String) : Bool :=
  hasTwoXX s.toList

/-- isAFailedHttpResponse from src/src/index.js lines 5 to 7: the
response is undefined, or its status read does not match 2xx.  The
undefined check comes first, so no field of an absent response is
read. -/
def isAFailedHttpResponse (res : Option Response) : Bool :=
  match res with
  | none => true
  | some r => !(test2xx (statusReadStr r))

/-- unauthorized from src/src/index.js lines 15 to 17: the regex 401
tested against res && (res.status || nested read).  For an undefined
res the guard short-circuits and the regex sees the string
undefined, so nothing is dereferenced. -/
def unauthorized (res : Option Response) : Bool :=
  match res with
  | none => test401 "undefined"
  | some r => test401 (statusReadStr r)

/-- noContent from src/src/index.js lines 19 to 21: the regex 204
tested against the direct status only.  In call it is reached only
after isAFailedHttpResponse ruled out an undefined response, so the
none branch is unreachable there; it is made total here. -/
def noContent (res : Option Response) : Bool :=
  match res with
  | none => test204 "undefined"
  | some r => test204 (jsStringOfStatus r.status)

/-- Contents of a JavaScript headers object as an association list in
insertion order. -/
abbrev HeaderMap := List (String × String)

/-- Property assignment obj.key = value on a headers object: an
existing key is overwritten in place, a new key appended. -/
def setHeaderMap (m : HeaderMap) (k v : String) : HeaderMap :=
  if m.any (fun p => p.1 == k) then
    m.map (fun p => if p.1 == k then (k, v) else p)
  else
    m ++ [(k, v)]

/-- HttpRequest from src/src/client/index.js lines 12 to 24.  Headers
holds the contents of the aliased configuration headers object at the
moment of observation. -/
structure HttpRequest where
  Url : String
  Data : JSVal
  Headers : HeaderMap
  Params : JSVal
  ResponseType : JSVal
deriving DecidableEq, Repr

/-- addHeader from src/src/client/index.js lines 21 to 23.  In the
source this mutates the shared headers object; the engine model
threads the updated map to every later reader. -/
def HttpRequest.addHeader (r : HttpRequest) (k v : String) : HttpRequest :=
  { r with Headers := setHeaderMap r.Headers k v }

/-- The immutable part of a validated configuration as the engine
reads it.  The bearer slot is a string or null (None); maxRetry is
the non-negative integer the claims quantify over.  Side effects are
listed by name in registration order. -/
structure Configuration where
  method : String
  url : String
  body : JSVal
  queryParams : JSVal
  responseType : JSVal
  bearer : Option String
  maxRetry : Nat
  retryFallbackSideEffects : List String
  unauthorizedSideEffects : List String
  failedSideEffects : List String
  successSideEffects : List String
deriving DecidableEq, Repr

/-- The request literal built at the top of call (src/src/index.js
lines 71 to 77): every field read from the configuration, Headers
aliasing the configuration headers whose current contents are hdrs. -/
def buildRequest (cfg : Configuration) (hdrs : HeaderMap) : HttpRequest where
  Url := cfg.url
  Data := cfg.body
  Headers := hdrs
  Params := cfg.queryParams
  ResponseType := cfg.responseType

/-- The headers contents after the bearer step of call
(src/src/index.js line 84): if configuration.bearer is truthy (a
non-empty string), addHeader writes the Authorization entry into the
shared object; otherwise nothing changes. -/
def authHeaders (cfg : Configuration) (hdrs : HeaderMap) : HeaderMap :=
  match cfg.bearer with
  | some tok => if tok != "" then
      setHeaderMap hdrs "Authorization" ("Bearer " ++ tok) else hdrs
  | none => hdrs

/-- Which side-effect sequence an observer belongs to. -/
inductive SideEffectKind where
  | retryFallback
  | unauthorized
  | failed
  | success
deriving DecidableEq, Repr

/-- Which terminal strategy slot ends a run. -/
inductive StrategyKind where
  | retryFallback
  | unauthorized
  | failed
  | noContent
  | success
deriving DecidableEq, Repr

/-- Argument handed to an observer or strategy: the request
descriptor on the fallback path, the (possibly absent) response on
every other path. -/
inductive Arg where
  | req (r : HttpRequest)
  | resp (r : Option Response)
deriving DecidableEq, Repr

/-- One observable step of a run. -/
inductive Event where
  | dispatched (method : String) (req : HttpRequest)
  | refreshTried (ok : Bool)
  | sideEffectRan (kind : SideEffectKind) (name : String) (arg : Arg)
deriving DecidableEq, Repr

/-- The terminal strategy invocation that produces the result of a
run. -/
structure Terminal where
  strat : StrategyKind
  arg : Arg
deriving DecidableEq, Repr

/-- Everything observable about one run of call: the ordered event
trace, the terminal strategy call, and the final contents of the
shared configuration headers object. -/
structure Outcome where
  trace : List Event
  terminal : Terminal
  headersAfter : HeaderMap
deriving DecidableEq, Repr

/-- call from src/src/index.js lines 69 to 105.  transport gives the
response of the dispatch made at a given retry index; refresh gives
the verdict of refreshTokenStrategy when consulted at that index.
hdrs is the current contents of the shared configuration headers
object; addHeader updates it for the request and for every later
attempt alike, because the HttpRequest constructor aliased it. -/
def call (cfg : Configuration) (transport : Nat → Option Response)
    (refresh : Nat → Bool) (hdrs : HeaderMap) (retry : Nat) : Outcome :=
  let request := buildRequest cfg hdrs
  if h : retry ≥ cfg.maxRetry then
    { trace := cfg.retryFallbackSideEffects.map
        (fun n => Event.sideEffectRan .retryFallback n (.req request)),
      terminal := { strat := .retryFallback, arg := .req request },
      headersAfter := hdrs }
  else
    let hdrs2 := authHeaders cfg hdrs
    let request2 := buildRequest cfg hdrs2
    let response := transport retry
    if unauthorized response then
      if refresh retry then
        let rest := call cfg transport refresh hdrs2 (retry + 1)
        { trace := Event.dispatched cfg.method request2 ::
            Event.refreshTried true :: rest.trace,
          terminal := rest.terminal,
          headersAfter := rest.headersAfter }
      else
        { trace := Event.dispatched cfg.method request2 ::
            Event.refreshTried false ::
            cfg.unauthorizedSideEffects.map
              (fun n => Event.sideEffectRan .unauthorized n (.resp response)),
          terminal := { strat := .unauthorized, arg := .resp response },
          headersAfter := hdrs2 }
    else if isAFailedHttpResponse response then
      { trace := Event.dispatched cfg.method request2 ::
          cfg.failedSideEffects.map
            (fun n => Event.sideEffectRan .failed n (.resp response)),
        terminal := { strat := .failed, arg := .resp response },
        headersAfter := hdrs2 }
    else
      { trace := Event.dispatched cfg.method request2 ::
          cfg.successSideEffects.map
            (fun n => Event.sideEffectRan .success n (.resp response)),
        terminal := { strat := if noContent response then .noContent
                      else .success,
                      arg := .resp response },
        headersAfter := hdrs2 }
termination_by cfg.maxRetry - retry
decreasing_by simp_wf; omega

/-- Number of transport dispatches recorded on a trace. -/
def dispatchCount : List Event → Nat
  | [] => 0
  | Event.dispatched _ _ :: tr => dispatchCount tr + 1
  | _ :: tr => dispatchCount tr

/-! ## Concrete fixtures

Small closed configurations, responses and oracles used to evaluate
the engine on concrete inputs. -/

/-- A configuration with a bearer token, one retry, and one named
observer in each side-effect sequence. -/
def demoCfg : Configuration where
  method := "Get"
  url := "https://api.test/x"
  body := .null
  queryParams := .null
  responseType := .null
  bearer := some "tok"
  maxRetry := 1
  retryFallbackSideEffects := ["logFallback"]
  unauthorizedSideEffects := ["clearSession"]
  failedSideEffects := ["logFail"]
  successSideEffects := ["logOk"]

/-- The same configuration with a zero retry budget. -/
def demoCfg0 : Configuration :=
  { demoCfg with maxRetry := 0 }

/-- The same configuration with a budget of two attempts. -/
def demoCfg2 : Configuration :=
  { demoCfg with maxRetry := 2 }

def respOk : Response := { status := some 200, data := .obj, response := none }

def respNC : Response := { status := some 204, data := .null, response := none }

def resp401 : Response := { status := some 401, data := .null, response := none }

/-- A transport-error shape: no direct status, a nested 401. -/
def respNested401 : Response :=
  { status := none, data := .null, response := some { status := some 401 } }

def tOk : Nat → Option Response := fun _ => some respOk

def tNC : Nat → Option Response := fun _ => some respNC

def t401 : Nat → Option Response := fun _ => some resp401

def tNone : Nat → Option Response := fun _ => none

def rfYes : Nat → Bool := fun _ => true

def rfNo : Nat → Bool := fun _ => false

/-- A raw configuration that is fully well formed except for a
number standing where an observer function should be, in each of the
two side-effect sequences the validator never reads. -/
def cexRaw : RawConfig where
  method := .str "Get"
  url := .str "https://api.test/x"
  headers := .obj
  bearer := .null
  queryParams := .null
  responseType := .null
  body := .null
  maxRetry := .num 2
  retryFallbackStrategy := .func
  unauthorizedStrategy := .func
  failedStrategy := .func
  noContentStrategy := .func
  successStrategy := .func
  refreshTokenStrategy := .func
  failedSideEffects := []
  successSideEffects := []
  unauthorizedSideEffects := [.num 3]
  retryFallbackSideEffects := [.num 7]

/-- A raw configuration whose only flaw is a number inside
failedSideEffects, one of the sequences the validator does read. -/
def cexRaw2 : RawConfig :=
  { cexRaw with
      failedSideEffects := [.num 3],
      unauthorizedSideEffects := [],
      retryFallbackSideEffects := [] }

/-! ## Branch unfolding lemmas for call -/

/-- Budget exhausted: the fallback side effects and the fallback
strategy over a descriptor built from the configuration, no dispatch,
no header change. -/
theorem call_exhausted (cfg : Configuration) (t : Nat → Option Response)
    (rf : Nat → Bool) (hdrs : HeaderMap) (retry : Nat)
    (h : retry ≥ cfg.maxRetry) :
    call cfg t rf hdrs retry =
      { trace := cfg.retryFallbackSideEffects.map
          (fun n => Event.sideEffectRan .retryFallback n
            (.req (buildRequest cfg hdrs))),
        terminal := { strat := .retryFallback,
                      arg := .req (buildRequest cfg hdrs) },
        headersAfter := hdrs } := by
  rw [call.eq_def]
  simp only [dif_pos h]

/-- Unauthorized response, refresh accepted: dispatch, refresh, then
the whole computation continues as the attempt at retry + 1 over the
mutated headers. -/
theorem call_unauth_true (cfg : Configuration) (t : Nat → Option Response)
    (rf : Nat → Bool) (hdrs : HeaderMap) (retry : Nat)
    (h : retry < cfg.maxRetry) (hu : unauthorized (t retry) = true)
    (hr : rf retry = true) :
    call cfg t rf hdrs retry =
      { trace := Event.dispatched cfg.method
            (buildRequest cfg (authHeaders cfg hdrs)) ::
          Event.refreshTried true ::
          (call cfg t rf (authHeaders cfg hdrs) (retry + 1)).trace,
        terminal := (call cfg t rf (authHeaders cfg hdrs) (retry + 1)).terminal,
        headersAfter :=
          (call cfg t rf (authHeaders cfg hdrs) (retry + 1)).headersAfter } := by
  rw [call.eq_def]
  simp only [dif_neg (Nat.not_le.mpr h), hu, hr, if_true]

/-- Unauthorized response, refresh declined: dispatch, refresh, the
unauthorized side effects in registration order, terminal
unauthorizedStrategy on the response. -/
theorem call_unauth_false (cfg : Configuration) (t : Nat → Option Response)
    (rf : Nat → Bool) (hdrs : HeaderMap) (retry : Nat)
    (h : retry < cfg.maxRetry) (hu : unauthorized (t retry) = true)
    (hr : rf retry = false) :
    call cfg t rf hdrs retry =
      { trace := Event.dispatched cfg.method
            (buildRequest cfg (authHeaders cfg hdrs)) ::
          Event.refreshTried false ::
          cfg.unauthorizedSideEffects.map
            (fun n => Event.sideEffectRan .unauthorized n (.resp (t retry))),
        terminal := { strat := .unauthorized, arg := .resp (t retry) },
        headersAfter := authHeaders cfg hdrs } := by
  rw [call.eq_def]
  simp only [dif_neg (Nat.not_le.mpr h), hu, hr, if_true, Bool.false_eq_true,
    if_false]

/-- Failed response: dispatch, the failed side effects in order,
terminal failedStrategy on the response. -/
theorem call_failed (cfg : Configuration) (t : Nat → Option Response)
    (rf : Nat → Bool) (hdrs : HeaderMap) (retry : Nat)
    (h : retry < cfg.maxRetry) (hu : unauthorized (t retry) = false)
    (hf : isAFailedHttpResponse (t retry) = true) :
    call cfg t rf hdrs retry =
      { trace := Event.dispatched cfg.method
            (buildRequest cfg (authHeaders cfg hdrs)) ::
          cfg.failedSideEffects.map
            (fun n => Event.sideEffectRan .failed n (.resp (t retry))),
        terminal := { strat := .failed, arg := .resp (t retry) },
        headersAfter := authHeaders cfg hdrs } := by
  rw [call.eq_def]
  simp only [dif_neg (Nat.not_le.mpr h), hu, hf, Bool.false_eq_true, if_false,
    if_true]

/-- Response neither unauthorized nor failed: dispatch, the success
side effects in order, then noContentStrategy or successStrategy by
the 204 test. -/
theorem call_success (cfg : Configuration) (t : Nat → Option Response)
    (rf : Nat → Bool) (hdrs : HeaderMap) (retry : Nat)
    (h : retry < cfg.maxRetry) (hu : unauthorized (t retry) = false)
    (hf : isAFailedHttpResponse (t retry) = false) :
    call cfg t rf hdrs retry =
      { trace := Event.dispatched cfg.method
            (buildRequest cfg (authHeaders cfg hdrs)) ::
          cfg.successSideEffects.map
            (fun n => Event.sideEffectRan .success n (.resp (t retry))),
        terminal := { strat := if noContent (t retry) then .noContent
                      else .success,
                      arg := .resp (t retry) },
        headersAfter := authHeaders cfg hdrs } := by
  rw [call.eq_def]
  simp only [dif_neg (Nat.not_le.mpr h), hu, hf, Bool.false_eq_true, if_false]

/-! ## Trace accounting helpers -/

theorem dispatchCount_map_sideEffect (k : SideEffectKind) (a : Arg)
    (l : List String) :
    dispatchCount (l.map (fun n => Event.sideEffectRan k n a)) = 0 := by
  induction l with
  | nil => rfl
  | cons x xs ih => simpa [dispatchCount] using ih

/-- Any attempt inside the budget begins with exactly one dispatch
event. -/
theorem call_head_dispatch (cfg : Configuration) (t : Nat → Option Response)
    (rf : Nat → Bool) (hdrs : HeaderMap) (retry : Nat)
    (h : retry < cfg.maxRetry) :
    (call cfg t rf hdrs retry).trace.head? =
      some (Event.dispatched cfg.method
        (buildRequest cfg (authHeaders cfg hdrs))) := by
  by_cases hu : unauthorized (t retry) = true
  · by_cases hr : rf retry = true
    · rw [call_unauth_true cfg t rf hdrs retry h hu hr]; rfl
    · rw [call_unauth_false cfg t rf hdrs retry h hu
        (Bool.not_eq_true _ ▸ hr)]; rfl
  · have hu2 : unauthorized (t retry) = false := by
      simpa using hu
    by_cases hf : isAFailedHttpResponse (t retry) = true
    · rw [call_failed cfg t rf hdrs retry h hu2 hf]; rfl
    · rw [call_success cfg t rf hdrs retry h hu2 (by simpa using hf)]; rfl

/-- A run starting at a given retry index performs at most the
remaining budget in dispatches.  The bound n drives the induction. -/
theorem call_dispatchCount_le (cfg : Configuration)
    (t : Nat → Option Response) (rf : Nat → Bool) :
    ∀ (n retry : Nat) (hdrs : HeaderMap), cfg.maxRetry - retry ≤ n →
      dispatchCount (call cfg t rf hdrs retry).trace ≤ cfg.maxRetry - retry := by
  intro n
  induction n with
  | zero =>
    intro retry hdrs hle
    have hge : retry ≥ cfg.maxRetry := by omega
    rw [call_exhausted cfg t rf hdrs retry hge]
    simp [dispatchCount_map_sideEffect]
  | succ n ih =>
    intro retry hdrs hle
    by_cases hge : retry ≥ cfg.maxRetry
    · rw [call_exhausted cfg t rf hdrs retry hge]
      simp [dispatchCount_map_sideEffect]
    · have hlt : retry < cfg.maxRetry := by omega
      by_cases hu : unauthorized (t retry) = true
      · by_cases hr : rf retry = true
        · rw [call_unauth_true cfg t rf hdrs retry hlt hu hr]
          have hrec := ih (retry + 1) (authHeaders cfg hdrs) (by omega)
          simp only [dispatchCount]
          omega
        · rw [call_unauth_false cfg t rf hdrs retry hlt hu (by simpa using hr)]
          simp only [dispatchCount, dispatchCount_map_sideEffect]
          omega
      · have hu2 : unauthorized (t retry) = false := by simpa using hu
        by_cases hf : isAFailedHttpResponse (t retry) = true
        · rw [call_failed cfg t rf hdrs retry hlt hu2 hf]
          simp only [dispatchCount, dispatchCount_map_sideEffect]
          omega
        · rw [call_success cfg t rf hdrs retry hlt hu2 (by simpa using hf)]
          simp only [dispatchCount, dispatchCount_map_sideEffect]
          omega

/-- If every in-budget dispatch comes back unauthorized and every
refresh is accepted, the run ends in the retry fallback strategy. -/
theorem call_exhaust_terminal (cfg : Configuration)
    (t : Nat → Option Response) (rf : Nat → Bool) :
    ∀ (n retry : Nat) (hdrs : HeaderMap), cfg.maxRetry - retry ≤ n →
      (∀ i, retry ≤ i → i < cfg.maxRetry →
        unauthorized (t i) = true ∧ rf i = true) →
      (call cfg t rf hdrs retry).terminal.strat = .retryFallback := by
  intro n
  induction n with
  | zero =>
    intro retry hdrs hle _
    have hge : retry ≥ cfg.maxRetry := by omega
    rw [call_exhausted cfg t rf hdrs retry hge]
  | succ n ih =>
    intro retry hdrs hle hall
    by_cases hge : retry ≥ cfg.maxRetry
    · rw [call_exhausted cfg t rf hdrs retry hge]
    · have hlt : retry < cfg.maxRetry := by omega
      obtain ⟨hu, hr⟩ := hall retry (Nat.le_refl retry) hlt
      rw [call_unauth_true cfg t rf hdrs retry hlt hu hr]
      exact ih (retry + 1) (authHeaders cfg hdrs) (by omega)
        (fun i hi1 hi2 => hall i (by omega) hi2)

/-! ## Claim theorems -/

/-- C1: for every configuration and every response classified
Unauthorized, the engine consults refreshTokenStrategy.  If it
returns true, the step records exactly the dispatch and the refresh
call, so no unauthorized handlers run at this step, and the whole
computation continues as the attempt with the counter incremented by
exactly one; that continuation opens with the single re-dispatch
whenever the shared budget allows it.  If it returns false, all
unauthorizedSideEffects run in registration order on the response,
unauthorizedStrategy on the response is the terminal result, and no
further dispatch occurs: the trace holds exactly one dispatch. -/
theorem unauthorized_refresh_contract (cfg : Configuration)
    (t : Nat → Option Response) (rf : Nat → Bool) (hdrs : HeaderMap)
    (retry : Nat) (hb : retry < cfg.maxRetry)
    (hu : unauthorized (t retry) = true) :
    (rf retry = true →
      call cfg t rf hdrs retry =
        { trace := Event.dispatched cfg.method
              (buildRequest cfg (authHeaders cfg hdrs)) ::
            Event.refreshTried true ::
            (call cfg t rf (authHeaders cfg hdrs) (retry + 1)).trace,
          terminal := (call cfg t rf (authHeaders cfg hdrs) (retry + 1)).terminal,
          headersAfter :=
            (call cfg t rf (authHeaders cfg hdrs) (retry + 1)).headersAfter } ∧
      (retry + 1 < cfg.maxRetry →
        (call cfg t rf (authHeaders cfg hdrs) (retry + 1)).trace.head? =
          some (Event.dispatched cfg.method
            (buildRequest cfg (authHeaders cfg (authHeaders cfg hdrs)))))) ∧
    (rf retry = false →
      call cfg t rf hdrs retry =
        { trace := Event.dispatched cfg.method
              (buildRequest cfg (authHeaders cfg hdrs)) ::
            Event.refreshTried false ::
            cfg.unauthorizedSideEffects.map
              (fun n => Event.sideEffectRan .unauthorized n (.resp (t retry))),
          terminal := { strat := .unauthorized, arg := .resp (t retry) },
          headersAfter := authHeaders cfg hdrs } ∧
      dispatchCount (call cfg t rf hdrs retry).trace = 1) := by
  constructor
  · intro hr
    exact ⟨call_unauth_true cfg t rf hdrs retry hb hu hr,
      fun hb2 => call_head_dispatch cfg t rf (authHeaders cfg hdrs)
        (retry + 1) hb2⟩
  · intro hr
    refine ⟨call_unauth_false cfg t rf hdrs retry hb hu hr, ?_⟩
    rw [call_unauth_false cfg t rf hdrs retry hb hu hr]
    simp [dispatchCount, dispatchCount_map_sideEffect]

/-- Witness for unauthorized_refresh_contract: concrete 401 run with
the refresh declined performs exactly one dispatch. -/
theorem unauthorized_refresh_contract_witness :
    dispatchCount (call demoCfg t401 rfNo [] 0).trace = 1 :=
  ((unauthorized_refresh_contract demoCfg t401 rfNo [] 0 (by decide)
      (by decide)).2 rfl).2

/-- C2: for every configuration with a non-negative integer budget
the run from attempt zero terminates (call is a total function) with
at most maxRetry dispatches on its trace, refresh-triggered
re-dispatches included, and a run whose every in-budget response is
unauthorized with an accepted refresh ends through
retryFallbackStrategy, not an error. -/
theorem call_retry_budget (cfg : Configuration)
    (t : Nat → Option Response) (rf : Nat → Bool) (hdrs : HeaderMap) :
    dispatchCount (call cfg t rf hdrs 0).trace ≤ cfg.maxRetry ∧
    ((∀ i, i < cfg.maxRetry → unauthorized (t i) = true ∧ rf i = true) →
      (call cfg t rf hdrs 0).terminal.strat = .retryFallback) := by
  constructor
  · have h := call_dispatchCount_le cfg t rf cfg.maxRetry 0 hdrs (by omega)
    simpa using h
  · intro hall
    exact call_exhaust_terminal cfg t rf cfg.maxRetry 0 hdrs (by omega)
      (fun i _ hi => hall i hi)

/-- Witness for call_retry_budget: all-unauthorized run with budget
one obeys the bound and falls back. -/
theorem call_retry_budget_witness :
    dispatchCount (call demoCfg t401 rfYes [] 0).trace ≤ demoCfg.maxRetry ∧
    (call demoCfg t401 rfYes [] 0).terminal.strat = .retryFallback :=
  ⟨(call_retry_budget demoCfg t401 rfYes []).1,
   (call_retry_budget demoCfg t401 rfYes []).2
     (fun _ _ => ⟨rfl, rfl⟩)⟩

/-- C5: every non-absent response whose status, as the engine reads
it (the direct status when truthy, the nested one otherwise),
matches 401 is classified Unauthorized regardless of every other
field, and the engine takes the unauthorized and refresh path: right
after the dispatch it consults refreshTokenStrategy. -/
theorem status401_always_unauthorized (r : Response)
    (h401 : test401 (statusReadStr r) = true) :
    unauthorized (some r) = true ∧
    ∀ (cfg : Configuration) (t : Nat → Option Response) (rf : Nat → Bool)
      (hdrs : HeaderMap) (retry : Nat), retry < cfg.maxRetry →
      t retry = some r →
      (call cfg t rf hdrs retry).trace.take 2 =
        [Event.dispatched cfg.method (buildRequest cfg (authHeaders cfg hdrs)),
         Event.refreshTried (rf retry)] := by
  have hur : unauthorized (some r) = true := by
    simpa [unauthorized] using h401
  refine ⟨hur, ?_⟩
  intro cfg t rf hdrs retry hb ht
  have hu : unauthorized (t retry) = true := by rw [ht]; exact hur
  by_cases hr : rf retry = true
  · rw [call_unauth_true cfg t rf hdrs retry hb hu hr, hr]; rfl
  · have hr2 : rf retry = false := by simpa using hr
    rw [call_unauth_false cfg t rf hdrs retry hb hu hr2, hr2]; rfl

/-- Witness for status401_always_unauthorized: a response with no
direct status and a nested 401 is Unauthorized and triggers the
refresh consultation. -/
theorem status401_always_unauthorized_witness :
    unauthorized (some respNested401) = true ∧
    (call demoCfg (fun _ => some respNested401) rfNo [] 0).trace.take 2 =
      [Event.dispatched demoCfg.method
        (buildRequest demoCfg (authHeaders demoCfg [])),
       Event.refreshTried (rfNo 0)] := by
  have h := status401_always_unauthorized respNested401 (by decide)
  exact ⟨h.1, h.2 demoCfg (fun _ => some respNested401) rfNo [] 0
    (by decide) rfl⟩

/-- C6: an absent transport response classifies Failed, never
Unauthorized or NoContent or Success; the classifiers reach this
verdict on the none case alone, mirroring the source
short-circuits (res === undefined is tested first, and the
unauthorized guard res && ... yields undefined) which read no field
of the absent response; failedSideEffects run in order and
failedStrategy on the undefined response is the terminal result. -/
theorem absent_response_failed (cfg : Configuration)
    (t : Nat → Option Response) (rf : Nat → Bool) (hdrs : HeaderMap)
    (retry : Nat) (hb : retry < cfg.maxRetry) (habs : t retry = none) :
    unauthorized none = false ∧ isAFailedHttpResponse none = true ∧
    noContent none = false ∧
    call cfg t rf hdrs retry =
      { trace := Event.dispatched cfg.method
            (buildRequest cfg (authHeaders cfg hdrs)) ::
          cfg.failedSideEffects.map
            (fun n => Event.sideEffectRan .failed n (.resp none)),
        terminal := { strat := .failed, arg := .resp none },
        headersAfter := authHeaders cfg hdrs } := by
  refine ⟨by decide, rfl, by decide, ?_⟩
  have h := call_failed cfg t rf hdrs retry hb (by rw [habs]; decide)
    (by rw [habs]; rfl)
  rw [habs] at h
  exact h

/-- Witness for absent_response_failed at a concrete run with an
absent response. -/
theorem absent_response_failed_witness :
    (call demoCfg tNone rfNo [] 0).terminal =
      { strat := .failed, arg := .resp none } := by
  have h := absent_response_failed demoCfg tNone rfNo [] 0 (by decide) rfl
  rw [h.2.2.2]

/-- C7: with a zero budget the engine dispatches nothing: on entry
it runs all retryFallbackSideEffects in registration order on a
descriptor freshly built from the configuration and terminates in
retryFallbackStrategy on that descriptor. -/
theorem maxRetry_zero_immediate_fallback (cfg : Configuration)
    (t : Nat → Option Response) (rf : Nat → Bool) (hdrs : HeaderMap)
    (h0 : cfg.maxRetry = 0) :
    call cfg t rf hdrs 0 =
      { trace := cfg.retryFallbackSideEffects.map
          (fun n => Event.sideEffectRan .retryFallback n
            (.req (buildRequest cfg hdrs))),
        terminal := { strat := .retryFallback,
                      arg := .req (buildRequest cfg hdrs) },
        headersAfter := hdrs } ∧
    dispatchCount (call cfg t rf hdrs 0).trace = 0 := by
  have h := call_exhausted cfg t rf hdrs 0 (by omega)
  refine ⟨h, ?_⟩
  rw [h]
  exact dispatchCount_map_sideEffect _ _ _

/-- Witness for maxRetry_zero_immediate_fallback at the zero-budget
demo configuration. -/
theorem maxRetry_zero_immediate_fallback_witness :
    (call demoCfg0 tOk rfNo [] 0).terminal =
      { strat := .retryFallback, arg := .req (buildRequest demoCfg0 []) } ∧
    dispatchCount (call demoCfg0 tOk rfNo [] 0).trace = 0 := by
  have h := maxRetry_zero_immediate_fallback demoCfg0 tOk rfNo [] rfl
  exact ⟨by rw [h.1], h.2⟩

/-- C8: a response neither Unauthorized nor Failed first drives all
successSideEffects in registration order, then exactly one terminal
strategy: noContentStrategy when the direct status matches 204,
successStrategy otherwise; the two outcomes share the same
side-effect sequence and differ only in the strategy slot. -/
theorem success_branch_contract (cfg : Configuration)
    (t : Nat → Option Response) (rf : Nat → Bool) (hdrs : HeaderMap)
    (retry : Nat) (hb : retry < cfg.maxRetry)
    (hu : unauthorized (t retry) = false)
    (hf : isAFailedHttpResponse (t retry) = false) :
    (call cfg t rf hdrs retry).trace =
      Event.dispatched cfg.method (buildRequest cfg (authHeaders cfg hdrs)) ::
        cfg.successSideEffects.map
          (fun n => Event.sideEffectRan .success n (.resp (t retry))) ∧
    (noContent (t retry) = true →
      (call cfg t rf hdrs retry).terminal =
        { strat := .noContent, arg := .resp (t retry) }) ∧
    (noContent (t retry) = false →
      (call cfg t rf hdrs retry).terminal =
        { strat := .success, arg := .resp (t retry) }) := by
  rw [call_success cfg t rf hdrs retry hb hu hf]
  refine ⟨rfl, fun hnc => ?_, fun hnc => ?_⟩ <;> simp [hnc]

/-- Witness for success_branch_contract: a 204 run terminates in
noContentStrategy and a 200 run in successStrategy. -/
theorem success_branch_contract_witness :
    (call demoCfg tNC rfNo [] 0).terminal =
      { strat := .noContent, arg := .resp (some respNC) } ∧
    (call demoCfg tOk rfNo [] 0).terminal =
      { strat := .success, arg := .resp (some respOk) } :=
  ⟨(success_branch_contract demoCfg tNC rfNo [] 0 (by decide) (by decide)
      (by decide)).2.1 (by decide),
   (success_branch_contract demoCfg tOk rfNo [] 0 (by decide) (by decide)
      (by decide)).2.2 (by decide)⟩

/-- Counterexample to C3 as stated: one plain successful run with a
bearer token changes the configuration headers object, which was
empty before the run and holds the Authorization entry after it,
because the descriptor aliased it. -/
theorem configuration_headers_mutated_cex :
    (call demoCfg tOk rfNo [] 0).headersAfter =
      [("Authorization", "Bearer tok")] ∧
    ([] : HeaderMap) ≠ [("Authorization", "Bearer tok")] := by
  constructor
  · rw [call_success demoCfg tOk rfNo [] 0 (by decide) (by decide) (by decide)]
    decide
  · decide

/-- C3 amended: every attempt builds a fresh RequestDescriptor, but
the descriptor aliases the configuration headers object, so an
in-budget attempt with a truthy bearer dispatches a descriptor whose
headers are the configured ones with the Authorization entry
written in, and leaves the configuration headers so mutated. -/
theorem descriptor_aliases_configuration_headers (cfg : Configuration)
    (t : Nat → Option Response) (rf : Nat → Bool) (hdrs : HeaderMap)
    (retry : Nat) (tok : String) (hb : retry < cfg.maxRetry)
    (htok : cfg.bearer = some tok) (hne : tok ≠ "")
    (hnu : unauthorized (t retry) = false) :
    (call cfg t rf hdrs retry).trace.head? =
      some (Event.dispatched cfg.method
        (buildRequest cfg
          (setHeaderMap hdrs "Authorization" ("Bearer " ++ tok)))) ∧
    (call cfg t rf hdrs retry).headersAfter =
      setHeaderMap hdrs "Authorization" ("Bearer " ++ tok) := by
  have hauth : authHeaders cfg hdrs =
      setHeaderMap hdrs "Authorization" ("Bearer " ++ tok) := by
    simp [authHeaders, htok, hne]
  constructor
  · rw [← hauth]
    exact call_head_dispatch cfg t rf hdrs retry hb
  · by_cases hf : isAFailedHttpResponse (t retry) = true
    · rw [call_failed cfg t rf hdrs retry hb hnu hf]; exact hauth
    · rw [call_success cfg t rf hdrs retry hb hnu (by simpa using hf)]
      exact hauth

/-- Witness for descriptor_aliases_configuration_headers at the demo
configuration. -/
theorem descriptor_aliases_configuration_headers_witness :
    (call demoCfg tOk rfNo [] 0).headersAfter =
      setHeaderMap [] "Authorization" ("Bearer " ++ "tok") :=
  (descriptor_aliases_configuration_headers demoCfg tOk rfNo [] 0 "tok"
    (by decide) rfl (by decide) (by decide)).2

/-- Counterexample to C4 as stated: a configuration holding plain
numbers inside unauthorizedSideEffects and retryFallbackSideEffects
still validates, because the strategy array the validator checks
spreads only failedSideEffects and successSideEffects. -/
theorem validation_skips_two_sequences_cex :
    validConfiguration cexRaw = true ∧
    JSVal.num 3 ∈ cexRaw.unauthorizedSideEffects ∧
    isFunctionJS (JSVal.num 3) = false ∧
    JSVal.num 7 ∈ cexRaw.retryFallbackSideEffects ∧
    isFunctionJS (JSVal.num 7) = false := by
  decide

/-- C4 amended: a non-callable value in any strategy slot or in any
member of failedSideEffects or successSideEffects makes validation
return invalid, whatever the other fields, so send never starts
execution; members of unauthorizedSideEffects and
retryFallbackSideEffects are outside the array the validator
inspects. -/
theorem validation_rejects_noncallable_checked (c : RawConfig) (v : JSVal)
    (hv : v ∈ strategiesOf c) (hnf : isFunctionJS v = false) :
    validConfiguration c = false := by
  have hstrat : strategiesInvalid (strategiesOf c) = true := by
    cases hall : (strategiesOf c).all isFunctionJS with
    | false => simp [strategiesInvalid, hall]
    | true =>
      exfalso
      have hfn := List.all_eq_true.mp hall v hv
      simp [hnf] at hfn
  unfold validConfiguration
  simp [hstrat]

/-- Witness for validation_rejects_noncallable_checked: a number in
failedSideEffects is rejected. -/
theorem validation_rejects_noncallable_checked_witness :
    validConfiguration cexRaw2 = false :=
  validation_rejects_noncallable_checked cexRaw2 (.num 3) (by decide)
    (by decide)

/-- C9: a fresh builder on which only a method and a non-empty url
are set passes validation and send proceeds to dispatch: the default
null queryParams satisfies the typeof object check (typeof null is
the string object), as do the default empty headers object, the
default numeric maxRetry of two, and the default callable strategy
and side-effect values. -/
theorem default_builder_valid (i : Fin 4) (u : String) (hu : u ≠ "") :
    typeofJS JSVal.null = "object" ∧
    ((setMethodByIndex i HttpBuilder.new).withUrl u).sendDispatches = true := by
  refine ⟨rfl, ?_⟩
  fin_cases i <;>
    simp [HttpBuilder.sendDispatches, validConfiguration,
      HttpBuilder.sendConfig, HttpBuilder.new, setMethodByIndex,
      HttpBuilder.asGet, HttpBuilder.asPost, HttpBuilder.asPut,
      HttpBuilder.asDelete, HttpBuilder.withUrl, methodInvalid,
      httpMethodsValues, jsTruthy, typeofJS, strategiesInvalid,
      strategiesOf, isFunctionJS, hu]

/-- Witness for default_builder_valid: asGet plus a concrete url. -/
theorem default_builder_valid_witness :
    ((setMethodByIndex 0 HttpBuilder.new).withUrl
      "https://api.test/x").sendDispatches = true :=
  (default_builder_valid 0 "https://api.test/x" (by decide)).2

/-- Counterexample to C10 as stated: bearer configured, budget one,
first dispatch unauthorized, refresh accepted; the exhausted
fallback then receives a descriptor whose headers carry the
Authorization entry left in the shared headers object by the first
attempt. -/
theorem fallback_descriptor_carries_auth_cex :
    (call demoCfg t401 rfYes [] 0).terminal =
      { strat := .retryFallback,
        arg := .req (buildRequest demoCfg
          [("Authorization", "Bearer tok")]) } ∧
    ("Authorization", "Bearer tok") ∈
      (buildRequest demoCfg [("Authorization", "Bearer tok")]).Headers := by
  constructor
  · rw [call_unauth_true demoCfg t401 rfYes [] 0 (by decide) (by decide) rfl]
    rw [call_exhausted demoCfg t401 rfYes (authHeaders demoCfg []) (0 + 1)
      (by decide)]
    decide
  · decide

/-- C10 amended: the bearer header is indeed attached only after the
budget check, so a fallback reached with no prior dispatch (a zero
budget) sees the descriptor built from the configured headers
untouched and carries no Authorization entry when those hold none;
after an in-budget dispatch with a bearer, the shared headers object
already holds the entry and the fallback descriptor then carries it
(see the counterexample). -/
theorem fallback_descriptor_headers_maxretry_zero (cfg : Configuration)
    (t : Nat → Option Response) (rf : Nat → Bool) (hdrs : HeaderMap)
    (h0 : cfg.maxRetry = 0)
    (hno : hdrs.all (fun p => p.1 != "Authorization") = true) :
    (call cfg t rf hdrs 0).terminal =
      { strat := .retryFallback, arg := .req (buildRequest cfg hdrs) } ∧
    (buildRequest cfg hdrs).Headers.all
      (fun p => p.1 != "Authorization") = true := by
  refine ⟨?_, hno⟩
  rw [call_exhausted cfg t rf hdrs 0 (by omega)]

/-- Witness for fallback_descriptor_headers_maxretry_zero at the
zero-budget demo configuration. -/
theorem fallback_descriptor_headers_maxretry_zero_witness :
    (call demoCfg0 t401 rfYes [] 0).terminal =
      { strat := .retryFallback, arg := .req (buildRequest demoCfg0 []) } :=
  (fallback_descriptor_headers_maxretry_zero demoCfg0 t401 rfYes [] rfl
    rfl).1

end NpmTemplate
